import Mathlib

/-!
Verification development for the ISE Meeting Room Scheduler (src/app.py).

The file shallowly embeds the booking-related parts of the application:
time and date values (Python datetime.time / datetime.date at second and
day resolution), the ISO parsing performed when stored records are read
back, the overlap predicate is_time_overlap, the conflict check
is_conflict, the Firestore-backed load/save/delete functions together
with their st.cache_data caching layer, and the form submission handler
handle_booking_submission.  Python dictionaries read back from Firestore
are modelled as structures with Option-valued fields; Python exceptions
that the code catches are modelled by the corresponding fallback values,
and exceptions that escape are modelled with Except.
-/

/-- datetime.time at second resolution (the app never uses microseconds). -/
structure PyTime where
  hour : Nat
  minute : Nat
  second : Nat
deriving DecidableEq, Repr

/-- datetime.date. -/
structure PyDate where
  year : Nat
  month : Nat
  day : Nat
deriving DecidableEq, Repr

/-- Python comparison on datetime.time objects is lexicographic on the
components; this embeds the `<` used by `start_time >= end_time`
(as `not <`) in handle_booking_submission. -/
def pyTimeLt (a b : PyTime) : Bool :=
  decide (a.hour < b.hour ∨
    (a.hour = b.hour ∧ (a.minute < b.minute ∨
      (a.minute = b.minute ∧ a.second < b.second))))

/-- A time value that datetime.time can actually hold. -/
def validTime (t : PyTime) : Prop :=
  t.hour < 24 ∧ t.minute < 60 ∧ t.second < 60

/-- A date value that datetime.date can actually hold (day checked
against the real month length, as date.fromisoformat does). -/
def isLeapYear (y : Nat) : Bool :=
  decide ((y % 4 = 0 ∧ y % 100 ≠ 0) ∨ y % 400 = 0)

def daysInMonth (y m : Nat) : Nat :=
  if m = 2 then (if isLeapYear y then 29 else 28)
  else if m = 4 ∨ m = 6 ∨ m = 9 ∨ m = 11 then 30
  else 31

def validDate (d : PyDate) : Prop :=
  1 ≤ d.year ∧ d.year ≤ 9999 ∧ 1 ≤ d.month ∧ d.month ≤ 12 ∧
    1 ≤ d.day ∧ d.day ≤ daysInMonth d.year d.month

instance (t : PyTime) : Decidable (validTime t) := by
  unfold validTime; infer_instance

instance (d : PyDate) : Decidable (validDate d) := by
  unfold validDate; infer_instance

/-- Decimal digit to character, as used by Python string formatting. -/
def digitChar : Nat → Char
  | 0 => '0' | 1 => '1' | 2 => '2' | 3 => '3' | 4 => '4'
  | 5 => '5' | 6 => '6' | 7 => '7' | 8 => '8' | _ => '9'

/-- Character to decimal digit, none for a non-digit. -/
def charDigit? (c : Char) : Option Nat :=
  if c.isDigit then some (c.toNat - 48) else none

/-- Two-digit zero padded decimal, Python %02d for values below 100. -/
def pad2 (n : Nat) : String :=
  String.mk [digitChar (n / 10), digitChar (n % 10)]

/-- Four-digit zero padded decimal, Python %04d for values below 10000. -/
def pad4 (n : Nat) : String :=
  String.mk [digitChar (n / 1000), digitChar (n / 100 % 10),
             digitChar (n / 10 % 10), digitChar (n % 10)]

/-- time.isoformat(timespec=minutes): the HH:MM string written to the
store by handle_booking_submission. -/
def formatTimeMinutes (t : PyTime) : String :=
  pad2 t.hour ++ ":" ++ pad2 t.minute

/-- date.isoformat(): the YYYY-MM-DD string written to the store. -/
def formatDate (d : PyDate) : String :=
  pad4 d.year ++ "-" ++ pad2 d.month ++ "-" ++ pad2 d.day

/-- time.fromisoformat on the formats the app can meet: HH:MM and
HH:MM:SS, zero padded, range checked; none models ValueError. -/
def parseTime (str : String) : Option PyTime :=
  match str.data with
  | [h1, h2, c1, m1, m2] =>
    if c1 = ':' then
      match charDigit? h1, charDigit? h2, charDigit? m1, charDigit? m2 with
      | some a, some b, some c, some d =>
        let hh := 10 * a + b
        let mm := 10 * c + d
        if hh ≤ 23 ∧ mm ≤ 59 then some ⟨hh, mm, 0⟩ else none
      | _, _, _, _ => none
    else none
  | [h1, h2, c1, m1, m2, c2, s1, s2] =>
    if c1 = ':' ∧ c2 = ':' then
      match charDigit? h1, charDigit? h2, charDigit? m1, charDigit? m2,
            charDigit? s1, charDigit? s2 with
      | some a, some b, some c, some d, some e, some f =>
        let hh := 10 * a + b
        let mm := 10 * c + d
        let ss := 10 * e + f
        if hh ≤ 23 ∧ mm ≤ 59 ∧ ss ≤ 59 then some ⟨hh, mm, ss⟩ else none
      | _, _, _, _, _, _ => none
    else none
  | _ => none

/-- date.fromisoformat on YYYY-MM-DD, range checked against the real
calendar; none models ValueError. -/
def parseDate (str : String) : Option PyDate :=
  match str.data with
  | [y1, y2, y3, y4, c1, m1, m2, c2, d1, d2] =>
    if c1 = '-' ∧ c2 = '-' then
      match charDigit? y1, charDigit? y2, charDigit? y3, charDigit? y4,
            charDigit? m1, charDigit? m2, charDigit? d1, charDigit? d2 with
      | some a, some b, some c, some d, some e, some f, some g, some h =>
        let yyyy := 1000 * a + 100 * b + 10 * c + d
        let mm := 10 * e + f
        let dd := 10 * g + h
        if 1 ≤ yyyy ∧ 1 ≤ mm ∧ mm ≤ 12 ∧ 1 ≤ dd ∧ dd ≤ daysInMonth yyyy mm
        then some ⟨yyyy, mm, dd⟩ else none
      | _, _, _, _, _, _, _, _ => none
    else none
  | _ => none

/-- fromisoformat applied to dict.get of an optional field: a missing
field (None) raises TypeError, a bad string ValueError; is_conflict
catches both, so both are none here. -/
def parseTimeField (o : Option String) : Option PyTime :=
  o.bind parseTime

def parseDateField (o : Option String) : Option PyDate :=
  o.bind parseDate

/-- The inner time_to_seconds helper of is_time_overlap (src/app.py,
lines 206-208): None becomes -1. -/
def time_to_seconds : Option PyTime → Int
  | none => -1
  | some t => (t.hour : Int) * 3600 + (t.minute : Int) * 60 + (t.second : Int)

/-- is_time_overlap (src/app.py, lines 204-213):
`return not (e1 <= s2 or s1 >= e2)` on seconds. -/
def is_time_overlap (start1 end1 start2 end2 : Option PyTime) : Bool :=
  let s1 := time_to_seconds start1
  let e1 := time_to_seconds end1
  let s2 := time_to_seconds start2
  let e2 := time_to_seconds end2
  decide (¬ (e1 ≤ s2 ∨ s1 ≥ e2))

lemma pyTimeLt_iff_seconds (a b : PyTime) (ha : validTime a) (hb : validTime b) :
    pyTimeLt a b = true ↔ time_to_seconds (some a) < time_to_seconds (some b) := by
  obtain ⟨ha1, ha2, ha3⟩ := ha
  obtain ⟨hb1, hb2, hb3⟩ := hb
  simp only [pyTimeLt, time_to_seconds, decide_eq_true_eq]
  omega

lemma charDigit_digitChar (n : Nat) (h : n < 10) : charDigit? (digitChar n) = some n := by
  interval_cases n <;> rfl

/-- Reading back the HH:MM string written by the app yields the original
time with the seconds dropped (the app writes timespec=minutes). -/
lemma parseTime_roundtrip (t : PyTime) (h1 : t.hour < 24) (h2 : t.minute < 60) :
    parseTime (formatTimeMinutes t) = some ⟨t.hour, t.minute, 0⟩ := by
  have hdata : (formatTimeMinutes t).data =
      [digitChar (t.hour / 10), digitChar (t.hour % 10), ':',
       digitChar (t.minute / 10), digitChar (t.minute % 10)] := by
    simp [formatTimeMinutes, pad2, String.data_append]
  rw [parseTime, hdata]
  simp only [if_pos rfl,
    charDigit_digitChar (t.hour / 10) (by omega),
    charDigit_digitChar (t.hour % 10) (by omega),
    charDigit_digitChar (t.minute / 10) (by omega),
    charDigit_digitChar (t.minute % 10) (by omega)]
  have e1 : 10 * (t.hour / 10) + t.hour % 10 = t.hour := by omega
  have e2 : 10 * (t.minute / 10) + t.minute % 10 = t.minute := by omega
  rw [e1, e2]
  rw [if_pos (show t.hour ≤ 23 ∧ t.minute ≤ 59 from ⟨by omega, by omega⟩)]
  rw [if_true]

lemma daysInMonth_le (y m : Nat) : daysInMonth y m ≤ 31 := by
  unfold daysInMonth
  split
  · split <;> omega
  · split <;> omega

/-- Reading back the YYYY-MM-DD string written by the app yields the
original date. -/
lemma parseDate_roundtrip (d : PyDate) (hd : validDate d) :
    parseDate (formatDate d) = some d := by
  obtain ⟨hy1, hy2, hm1, hm2, hd1, hd2⟩ := hd
  have hday31 : d.day ≤ 31 := le_trans hd2 (daysInMonth_le d.year d.month)
  have hdata : (formatDate d).data =
      [digitChar (d.year / 1000), digitChar (d.year / 100 % 10),
       digitChar (d.year / 10 % 10), digitChar (d.year % 10), '-',
       digitChar (d.month / 10), digitChar (d.month % 10), '-',
       digitChar (d.day / 10), digitChar (d.day % 10)] := by
    simp [formatDate, pad4, pad2, String.data_append]
  rw [parseDate, hdata]
  simp only [if_pos (show ('-' : Char) = '-' ∧ ('-' : Char) = '-' from ⟨rfl, rfl⟩),
    charDigit_digitChar (d.year / 1000) (by omega),
    charDigit_digitChar (d.year / 100 % 10) (by omega),
    charDigit_digitChar (d.year / 10 % 10) (by omega),
    charDigit_digitChar (d.year % 10) (by omega),
    charDigit_digitChar (d.month / 10) (by omega),
    charDigit_digitChar (d.month % 10) (by omega),
    charDigit_digitChar (d.day / 10) (by omega),
    charDigit_digitChar (d.day % 10) (by omega)]
  have e1 : 1000 * (d.year / 1000) + 100 * (d.year / 100 % 10) +
      10 * (d.year / 10 % 10) + d.year % 10 = d.year := by omega
  have e2 : 10 * (d.month / 10) + d.month % 10 = d.month := by omega
  have e3 : 10 * (d.day / 10) + d.day % 10 = d.day := by omega
  rw [e1, e2, e3]
  rw [if_pos (show 1 ≤ d.year ∧ 1 ≤ d.month ∧ d.month ≤ 12 ∧ 1 ≤ d.day ∧
      d.day ≤ daysInMonth d.year d.month from ⟨hy1, hm1, hm2, hd1, hd2⟩)]
  simp

/-- A booking document as read back from the Firestore bookings
collection (doc.to_dict() plus the doc_id the loader attaches, src
lines 124-127).  Firestore documents are schemaless, so every stored
field is optional; doc_id always exists because the loader sets it. -/
structure StoredBooking where
  room : Option String
  date : Option String
  start_time : Option String
  end_time : Option String
  user_id : Option String
  user_email : Option String
  doc_id : String
deriving DecidableEq, Repr

/-- The new_booking dict built by handle_booking_submission (src lines
252-262): ISO strings plus the original Python objects. -/
structure NewBooking where
  room : String
  date : String
  start_time : String
  end_time : String
  user_id : String
  user_email : String
  date_obj : PyDate
  start_time_obj : PyTime
  end_time_obj : PyTime
deriving DecidableEq, Repr

/-- Room catalog (src lines 43-47): room id, capacity, has_projector. -/
def ROOMS : List (String × Nat × Bool) :=
  [("ISE_Meeting_Room_I_305_Fl1", 8, true),
   ("ISE_Meeting_Room_II_Fl2", 20, true),
   ("ISE_Meeting_Room_III_304/1_Fl1", 20, false)]

/-- The options offered by the room selectbox of the booking form
(src line 493): list(ROOMS.keys()). -/
def booking_form_room_options : List String := ROOMS.map (fun r => r.1)

/-- is_conflict (src lines 215-233).  For each stored record the three
date/time fields are parsed inside try/except (TypeError, ValueError,
AttributeError caught -> continue); after a successful parse the code
reads booking[room] with a plain subscript, which raises KeyError when
the field is absent - modelled with Except.error. -/
def is_conflict (nb : NewBooking) : List StoredBooking → Except String Bool
  | [] => Except.ok false
  | b :: rest =>
    match parseDateField b.date, parseTimeField b.start_time,
          parseTimeField b.end_time with
    | some bd, some bstart, some bend =>
      match b.room with
      | none => Except.error "KeyError: room"
      | some br =>
        if br = nb.room ∧ bd = nb.date_obj then
          if is_time_overlap (some nb.start_time_obj) (some nb.end_time_obj)
              (some bstart) (some bend) = true
          then Except.ok true
          else is_conflict nb rest
        else is_conflict nb rest
    | _, _, _ => is_conflict nb rest

/-- The fully parsed view of a stored record: present exactly when all
four fields that is_conflict consumes are usable. -/
structure ParsedBooking where
  room : String
  date : PyDate
  startT : PyTime
  endT : PyTime
deriving DecidableEq, Repr

def bookingView (b : StoredBooking) : Option ParsedBooking :=
  match b.room, parseDateField b.date, parseTimeField b.start_time,
        parseTimeField b.end_time with
  | some r, some d, some s, some e => some ⟨r, d, s, e⟩
  | _, _, _, _ => none

/-- Two parsed bookings overlap in time (half-open, measured in
seconds exactly as is_time_overlap measures it). -/
def pbOverlap (x y : ParsedBooking) : Prop :=
  time_to_seconds (some x.startT) < time_to_seconds (some y.endT) ∧
    time_to_seconds (some y.startT) < time_to_seconds (some x.endT)

instance (x y : ParsedBooking) : Decidable (pbOverlap x y) := by
  unfold pbOverlap; infer_instance

/-- The central invariant: for every room and date, the parsed stored
bookings of that room and date are pairwise non-overlapping. -/
def nonOverlapInvariant (bs : List StoredBooking) : Prop :=
  ∀ r d, ((bs.filterMap bookingView).filter
      (fun p => decide (p.room = r ∧ p.date = d))).Pairwise
    (fun x y => ¬ pbOverlap x y)

lemma bookingView_fields (b : StoredBooking) (pb : ParsedBooking)
    (h : bookingView b = some pb) :
    b.room = some pb.room ∧ parseDateField b.date = some pb.date ∧
      parseTimeField b.start_time = some pb.startT ∧
      parseTimeField b.end_time = some pb.endT := by
  unfold bookingView at h
  split at h
  · cases h
    refine ⟨by assumption, by assumption, by assumption, by assumption⟩
  · simp at h

lemma is_conflict_cons_tail (nb : NewBooking) (b : StoredBooking)
    (tl : List StoredBooking) (h : is_conflict nb (b :: tl) = Except.ok false) :
    is_conflict nb tl = Except.ok false := by
  rw [is_conflict] at h
  split at h
  · split at h
    · simp at h
    · split at h
      · split at h
        · simp at h
        · exact h
      · exact h
  · exact h

lemma is_conflict_cons_head (nb : NewBooking) (b : StoredBooking)
    (tl : List StoredBooking) (h : is_conflict nb (b :: tl) = Except.ok false)
    (pb : ParsedBooking) (hview : bookingView b = some pb)
    (hroom : pb.room = nb.room) (hdate : pb.date = nb.date_obj) :
    is_time_overlap (some nb.start_time_obj) (some nb.end_time_obj)
      (some pb.startT) (some pb.endT) = false := by
  obtain ⟨hr, hd, hs, he⟩ := bookingView_fields b pb hview
  simp only [is_conflict, hd, hs, he, hr] at h
  rw [if_pos ⟨hroom, hdate⟩] at h
  cases hov : is_time_overlap (some nb.start_time_obj) (some nb.end_time_obj)
      (some pb.startT) (some pb.endT)
  · rfl
  · rw [if_pos hov] at h
    simp at h

lemma is_conflict_no_overlap (nb : NewBooking) (bs : List StoredBooking)
    (h : is_conflict nb bs = Except.ok false) :
    ∀ b ∈ bs, ∀ pb : ParsedBooking, bookingView b = some pb →
      pb.room = nb.room → pb.date = nb.date_obj →
      is_time_overlap (some nb.start_time_obj) (some nb.end_time_obj)
        (some pb.startT) (some pb.endT) = false := by
  induction bs with
  | nil => intro b hmem; exact absurd hmem (List.not_mem_nil b)
  | cons hd tl ih =>
    intro b hmem pb hview hroom hdate
    rw [List.mem_cons] at hmem
    rcases hmem with rfl | hmem
    · exact is_conflict_cons_head nb b tl h pb hview hroom hdate
    · exact ih (is_conflict_cons_tail nb hd tl h) b hmem pb hview hroom hdate

lemma is_conflict_skip (nb : NewBooking) (b : StoredBooking)
    (rest : List StoredBooking)
    (hmal : parseDateField b.date = none ∨ parseTimeField b.start_time = none ∨
      parseTimeField b.end_time = none) :
    is_conflict nb (b :: rest) = is_conflict nb rest := by
  cases hd : parseDateField b.date with
  | none => simp only [is_conflict, hd]
  | some bd =>
    cases hs : parseTimeField b.start_time with
    | none => simp only [is_conflict, hd, hs]
    | some bst =>
      cases he : parseTimeField b.end_time with
      | none => simp only [is_conflict, hd, hs, he]
      | some be => rcases hmal with h | h | h <;> simp_all

lemma is_conflict_total (nb : NewBooking) (bs : List StoredBooking)
    (hwf : ∀ b ∈ bs, ((parseDateField b.date).isSome ∧
      (parseTimeField b.start_time).isSome ∧
      (parseTimeField b.end_time).isSome) → (b.room).isSome = true) :
    ∃ r, is_conflict nb bs = Except.ok r := by
  induction bs with
  | nil => exact ⟨false, rfl⟩
  | cons b tl ih =>
    obtain ⟨r, hr⟩ := ih (fun x hx => hwf x (List.mem_cons_of_mem b hx))
    cases hd : parseDateField b.date with
    | none => exact ⟨r, by simp only [is_conflict, hd]; exact hr⟩
    | some bd =>
      cases hs : parseTimeField b.start_time with
      | none => exact ⟨r, by simp only [is_conflict, hd, hs]; exact hr⟩
      | some bst =>
        cases he : parseTimeField b.end_time with
        | none => exact ⟨r, by simp only [is_conflict, hd, hs, he]; exact hr⟩
        | some be =>
          have hroom : (b.room).isSome = true := by
            refine hwf b (List.mem_cons_self b tl) ⟨?_, ?_, ?_⟩ <;>
              simp [hd, hs, he]
          obtain ⟨br, hbr⟩ := Option.isSome_iff_exists.mp hroom
          by_cases hc : br = nb.room ∧ bd = nb.date_obj
          · by_cases hov : is_time_overlap (some nb.start_time_obj)
                (some nb.end_time_obj) (some bst) (some be) = true
            · exact ⟨true, by
                simp only [is_conflict, hd, hs, he, hbr]
                rw [if_pos hc, if_pos hov]⟩
            · exact ⟨r, by
                simp only [is_conflict, hd, hs, he, hbr]
                rw [if_pos hc, if_neg hov]
                exact hr⟩
          · exact ⟨r, by
              simp only [is_conflict, hd, hs, he, hbr]
              rw [if_neg hc]
              exact hr⟩

lemma is_conflict_of_overlap (nb : NewBooking) (bs : List StoredBooking)
    (hwf : ∀ b ∈ bs, ((parseDateField b.date).isSome ∧
      (parseTimeField b.start_time).isSome ∧
      (parseTimeField b.end_time).isSome) → (b.room).isSome = true)
    (hex : ∃ b ∈ bs, ∃ pb : ParsedBooking, bookingView b = some pb ∧
      pb.room = nb.room ∧ pb.date = nb.date_obj ∧
      is_time_overlap (some nb.start_time_obj) (some nb.end_time_obj)
        (some pb.startT) (some pb.endT) = true) :
    is_conflict nb bs = Except.ok true := by
  induction bs with
  | nil =>
    obtain ⟨b, hb, _⟩ := hex
    exact absurd hb (List.not_mem_nil b)
  | cons b tl ih =>
    obtain ⟨b0, hb0, pb, hview, hroom, hdate, hov⟩ := hex
    rw [List.mem_cons] at hb0
    rcases hb0 with rfl | hb0
    · obtain ⟨hr, hd, hs, he⟩ := bookingView_fields b0 pb hview
      simp only [is_conflict, hd, hs, he, hr]
      rw [if_pos ⟨hroom, hdate⟩, if_pos hov]
    · have hrec := ih (fun x hx => hwf x (List.mem_cons_of_mem b hx))
        ⟨b0, hb0, pb, hview, hroom, hdate, hov⟩
      cases hd : parseDateField b.date with
      | none => simp only [is_conflict, hd]; exact hrec
      | some bd =>
        cases hs : parseTimeField b.start_time with
        | none => simp only [is_conflict, hd, hs]; exact hrec
        | some bst =>
          cases he : parseTimeField b.end_time with
          | none => simp only [is_conflict, hd, hs, he]; exact hrec
          | some be =>
            have hroomHead : (b.room).isSome = true := by
              refine hwf b (List.mem_cons_self b tl) ⟨?_, ?_, ?_⟩ <;>
                simp [hd, hs, he]
            obtain ⟨br, hbr⟩ := Option.isSome_iff_exists.mp hroomHead
            simp only [is_conflict, hd, hs, he, hbr]
            by_cases hc : br = nb.room ∧ bd = nb.date_obj
            · by_cases hov2 : is_time_overlap (some nb.start_time_obj)
                  (some nb.end_time_obj) (some bst) (some be) = true
              · rw [if_pos hc, if_pos hov2]
              · rw [if_pos hc, if_neg hov2]; exact hrec
            · rw [if_neg hc]; exact hrec

/-- Appending a record that the conflict check admitted preserves the
non-overlap invariant. -/
lemma nonOverlap_append (db : List StoredBooking) (nb : NewBooking)
    (rec : StoredBooking)
    (hview : bookingView rec =
      some ⟨nb.room, nb.date_obj, nb.start_time_obj, nb.end_time_obj⟩)
    (hok : is_conflict nb db = Except.ok false)
    (hinv : nonOverlapInvariant db) :
    nonOverlapInvariant (db ++ [rec]) := by
  intro r d
  rw [List.filterMap_append]
  have hfm : List.filterMap bookingView [rec] =
      [⟨nb.room, nb.date_obj, nb.start_time_obj, nb.end_time_obj⟩] := by
    simp [List.filterMap_cons, hview]
  rw [hfm, List.filter_append]
  by_cases hc : nb.room = r ∧ nb.date_obj = d
  · have hfilter : List.filter (fun p => decide (p.room = r ∧ p.date = d))
        [(⟨nb.room, nb.date_obj, nb.start_time_obj, nb.end_time_obj⟩ : ParsedBooking)] =
        [⟨nb.room, nb.date_obj, nb.start_time_obj, nb.end_time_obj⟩] := by
      simp [List.filter, hc.1, hc.2]
    rw [hfilter, List.pairwise_append]
    refine ⟨hinv r d, List.pairwise_singleton _ _, ?_⟩
    intro x hx y hy
    rw [List.mem_singleton] at hy
    subst hy
    rw [List.mem_filter] at hx
    obtain ⟨hxmem, hxpred⟩ := hx
    rw [List.mem_filterMap] at hxmem
    obtain ⟨b, hbmem, hbview⟩ := hxmem
    have hxprop : x.room = r ∧ x.date = d := of_decide_eq_true hxpred
    have hov := is_conflict_no_overlap nb db hok b hbmem x hbview
      (hxprop.1.trans hc.1.symm) (hxprop.2.trans hc.2.symm)
    intro hcon
    unfold pbOverlap at hcon
    simp only [is_time_overlap, decide_eq_false_iff_not, not_not,
      time_to_seconds] at hov
    simp only [time_to_seconds] at hcon
    omega
  · have hfilter : List.filter (fun p => decide (p.room = r ∧ p.date = d))
        [(⟨nb.room, nb.date_obj, nb.start_time_obj, nb.end_time_obj⟩ : ParsedBooking)] =
        [] := by
      simp only [List.filter]
      rw [decide_eq_false]
      exact fun hx => hc ⟨hx.1, hx.2⟩
    rw [hfilter, List.append_nil]
    exact hinv r d

/-- A user document of the users collection. -/
structure UserRec where
  email : Option String
  hashed_password : Option String
  role : Option String
deriving DecidableEq, Repr

/-- MOCK_USER_FALLBACK (src lines 34-40). -/
def MOCK_USER_FALLBACK : List (String × UserRec) :=
  [("admin.user",
    ⟨some "admin@ise.com",
     some "$2b$12$FAKE.HASH.FOR.ADMIN.DO.NOT.USE.THIS.IN.PRODUCTION.3",
     some "admin"⟩)]

/-- The observable state of one app process: the Firestore collections,
the two st.cache_data caches, the session identity, and flags saying
whether the next Firestore read or write raises (modelling transient
connection failures that the try/except blocks catch).  next_doc_id
feeds the ids Firestore assigns on collection add.  The date_obj /
time_obj Python objects that handle_booking_submission also places in
the dict are not modelled in the stored record: every reader consumes
only the ISO string fields. -/
structure AppState where
  db_ready : Bool
  db_bookings : List StoredBooking
  db_users : List (String × UserRec)
  bookings_cache : Option (List StoredBooking)
  users_cache : Option (List (String × UserRec))
  read_ok : Bool
  users_read_ok : Bool
  write_ok : Bool
  authenticated_user : Option String
  user_role : Option String
  next_doc_id : Nat
deriving DecidableEq, Repr

/-- The body of load_bookings_from_db (src lines 116-132): not connected
gives [], a read exception is caught and also gives [] after showing an
error. -/
def bookingsBody (s : AppState) : List StoredBooking :=
  if s.db_ready = false then []
  else if s.read_ok then s.db_bookings
  else []

/-- load_bookings_from_db with its st.cache_data(ttl=5) wrapper (src
lines 115-132): a warm cache is returned as is; on a miss the body runs
and its return value, including the [] produced by the except branch,
is cached. -/
def load_bookings_from_db (s : AppState) : List StoredBooking × AppState :=
  match s.bookings_cache with
  | some bs => (bs, s)
  | none => (bookingsBody s, { s with bookings_cache := some (bookingsBody s) })

/-- The body of load_users_from_db (src lines 92-111): mock fallback
when not connected, on a read exception, or when the collection is
empty. -/
def usersBody (s : AppState) : List (String × UserRec) :=
  if s.db_ready = false then MOCK_USER_FALLBACK
  else if s.users_read_ok then
    (if s.db_users.isEmpty then MOCK_USER_FALLBACK else s.db_users)
  else MOCK_USER_FALLBACK

/-- load_users_from_db with its st.cache_data(ttl=3600) wrapper (src
lines 91-111). -/
def load_users_from_db (s : AppState) : List (String × UserRec) × AppState :=
  match s.users_cache with
  | some us => (us, s)
  | none => (usersBody s, { s with users_cache := some (usersBody s) })

/-- Python dict lookup current_users[user]. -/
def lookupUser (us : List (String × UserRec)) (u : String) : Option UserRec :=
  (us.find? (fun p => p.1 == u)).map (fun p => p.2)

/-- The stored document created by collection(bookings).add(new_booking)
as it will be seen by later reads: the ISO string fields of the dict,
with the id Firestore assigned attached by the loader. -/
def newRecord (nb : NewBooking) (docId : String) : StoredBooking :=
  { room := some nb.room, date := some nb.date,
    start_time := some nb.start_time, end_time := some nb.end_time,
    user_id := some nb.user_id, user_email := some nb.user_email,
    doc_id := docId }

/-- save_booking_to_db (src lines 136-147): False when not connected;
a raising add is caught, shows an error, returns False without
touching the cache; a successful add appends the document and clears
the bookings cache. -/
def save_booking_to_db (nb : NewBooking) (s : AppState) : Bool × AppState :=
  if s.db_ready = false then (false, s)
  else if s.write_ok then
    (true, { s with
      db_bookings := s.db_bookings ++ [newRecord nb (toString s.next_doc_id)],
      next_doc_id := s.next_doc_id + 1,
      bookings_cache := none })
  else (false, s)

/-- delete_booking_from_db (src lines 150-168).  The Cancel- marker is
stripped (split once on the first dash); Firestore document paths must
be non-empty, so document() on an empty id raises ValueError, caught by
the except branch; a delete of an id that exists removes the document,
and a delete of an absent id is a silent success because Firestore
document deletes are idempotent and the code performs no existence
check.  write_ok = false models a raising delete call. -/
def delete_booking_from_db (doc_id : String) (s : AppState) : Bool × AppState :=
  if s.db_ready = false then (false, s)
  else
    let actual_doc_id :=
      if "Cancel-".data.isPrefixOf doc_id.data then doc_id.drop 7 else doc_id
    if actual_doc_id = "" then (false, s)
    else if s.write_ok = false then (false, s)
    else (true, { s with
      db_bookings := s.db_bookings.filter
        (fun b => decide (b.doc_id ≠ actual_doc_id)),
      bookings_cache := none })

/-- The outcome of one run of handle_booking_submission, as observable
through the toasts of src lines 241-268; pythonError models an uncaught
exception aborting the script run. -/
inductive SubmitResult where
  | notLoggedIn
  | invalidInterval
  | conflict
  | success
  | saveFailed
  | pythonError (msg : String)
deriving DecidableEq, Repr

/-- The commit path of handle_booking_submission (src lines 250-268):
read the bookings snapshot through the cache, run is_conflict against
that snapshot, and save when admitted. -/
def commit_path (nb : NewBooking) (s : AppState) : SubmitResult × AppState :=
  let res := load_bookings_from_db s
  match is_conflict nb res.1 with
  | Except.error e => (SubmitResult.pythonError e, res.2)
  | Except.ok true => (SubmitResult.conflict, res.2)
  | Except.ok false =>
    let sv := save_booking_to_db nb res.2
    (if sv.1 then SubmitResult.success else SubmitResult.saveFailed, sv.2)

/-- handle_booking_submission (src lines 237-268): login check, then
interval check, then user email lookup (plain dict subscripts, KeyError
when absent), then the commit path. -/
def handle_booking_submission (s : AppState) (room_name : String)
    (booking_date : PyDate) (start_time end_time : PyTime) :
    SubmitResult × AppState :=
  match s.authenticated_user with
  | none => (SubmitResult.notLoggedIn, s)
  | some user =>
    if pyTimeLt start_time end_time = false then (SubmitResult.invalidInterval, s)
    else
      let lu := load_users_from_db s
      match lookupUser lu.1 user with
      | none => (SubmitResult.pythonError "KeyError: user", lu.2)
      | some urec =>
        match urec.email with
        | none => (SubmitResult.pythonError "KeyError: email", lu.2)
        | some user_email =>
          commit_path
            { room := room_name,
              date := formatDate booking_date,
              start_time := formatTimeMinutes start_time,
              end_time := formatTimeMinutes end_time,
              user_id := user,
              user_email := user_email,
              date_obj := booking_date,
              start_time_obj := start_time,
              end_time_obj := end_time } lu.2

/-- The cancel cell that display_data_and_export computes for one row
(src lines 555-565): reading booking[user_id] with a plain subscript
(KeyError when absent), then Cancel-{doc_id} when the requester owns
the booking or has the admin role, otherwise the empty string, which
renders no usable cancel control. -/
def cancel_item (current_user : String) (current_role : Option String)
    (b : StoredBooking) : Except String String :=
  match b.user_id with
  | none => Except.error "KeyError: user_id"
  | some owner =>
    let is_owner := owner = current_user
    let can_cancel := is_owner ∨ current_role = some "admin"
    if can_cancel then Except.ok ("Cancel-" ++ b.doc_id)
    else Except.ok ""

/-- Two submissions racing on the commit path (src lines 250-268).
Streamlit serves sessions on separate threads, so nothing prevents this
interleaving: thread A reads its snapshot through the cache, thread B
then runs its whole commit path, and thread A finally finishes its
conflict check against the snapshot it already holds and saves.  The
steps of thread A are exactly those of commit_path, split at the only
point where another thread can intervene. -/
def interleaved_commits (nbA nbB : NewBooking) (s0 : AppState) :
    SubmitResult × SubmitResult × AppState :=
  let resA := load_bookings_from_db s0
  let outB := commit_path nbB resA.2
  match is_conflict nbA resA.1 with
  | Except.error e => (SubmitResult.pythonError e, outB.1, outB.2)
  | Except.ok true => (SubmitResult.conflict, outB.1, outB.2)
  | Except.ok false =>
    let sv := save_booking_to_db nbA outB.2
    (if sv.1 then SubmitResult.success else SubmitResult.saveFailed,
      outB.1, sv.2)

/-- Claim C3: is_time_overlap returns true iff start1 < end2 and
start2 < end1 (comparisons being the Python time order), half-open;
in particular an interval ending exactly when the other starts does
not overlap it. -/
theorem claim_C3_overlap_iff (s1 e1 s2 e2 : PyTime)
    (h1 : validTime s1) (h2 : validTime e1) (h3 : validTime s2)
    (h4 : validTime e2) :
    (is_time_overlap (some s1) (some e1) (some s2) (some e2) = true ↔
      (pyTimeLt s1 e2 = true ∧ pyTimeLt s2 e1 = true)) ∧
    (e1 = s2 →
      is_time_overlap (some s1) (some e1) (some s2) (some e2) = false) := by
  constructor
  · rw [pyTimeLt_iff_seconds s1 e2 h1 h4, pyTimeLt_iff_seconds s2 e1 h3 h2]
    simp only [is_time_overlap, time_to_seconds, decide_eq_true_eq]
    omega
  · intro he
    subst he
    simp only [is_time_overlap, time_to_seconds, decide_eq_false_iff_not,
      not_not]
    omega

theorem claim_C3_witness :
    (is_time_overlap (some ⟨9, 0, 0⟩) (some ⟨10, 0, 0⟩) (some ⟨9, 30, 0⟩)
        (some ⟨10, 30, 0⟩) = true ↔
      (pyTimeLt ⟨9, 0, 0⟩ ⟨10, 30, 0⟩ = true ∧
        pyTimeLt ⟨9, 30, 0⟩ ⟨10, 0, 0⟩ = true)) ∧
    is_time_overlap (some ⟨9, 0, 0⟩) (some ⟨10, 0, 0⟩) (some ⟨10, 0, 0⟩)
      (some ⟨11, 0, 0⟩) = false :=
  ⟨(claim_C3_overlap_iff ⟨9, 0, 0⟩ ⟨10, 0, 0⟩ ⟨9, 30, 0⟩ ⟨10, 30, 0⟩
      (by decide) (by decide) (by decide) (by decide)).1,
   (claim_C3_overlap_iff ⟨9, 0, 0⟩ ⟨10, 0, 0⟩ ⟨10, 0, 0⟩ ⟨11, 0, 0⟩
      (by decide) (by decide) (by decide) (by decide)).2 rfl⟩

/-- Claim C8: a logged-in request whose start is not strictly before
its end is rejected as an invalid interval and the whole state is
untouched: no user read, no bookings read, no write. -/
theorem claim_C8_invalid_interval (s : AppState) (u room_name : String)
    (d : PyDate) (start_time end_time : PyTime)
    (hauth : s.authenticated_user = some u)
    (hge : pyTimeLt start_time end_time = false) :
    handle_booking_submission s room_name d start_time end_time =
      (SubmitResult.invalidInterval, s) := by
  simp [handle_booking_submission, hauth, hge]

/-- A users collection used by concrete instances below. -/
def sampleUsers : List (String × UserRec) :=
  [("alice", ⟨some "alice@ise.com", none, some "user"⟩),
   ("bob", ⟨some "bob@ise.com", none, some "user"⟩)]

/-- A connected baseline state: warm users cache, cold bookings cache,
reads and writes succeeding, alice logged in, empty store. -/
def sampleState : AppState :=
  { db_ready := true, db_bookings := [], db_users := sampleUsers,
    bookings_cache := none, users_cache := some sampleUsers,
    read_ok := true, users_read_ok := true, write_ok := true,
    authenticated_user := some "alice", user_role := some "user",
    next_doc_id := 0 }

/-- An existing stored booking: alice, room I, 2024-06-01, 09:00-10:00. -/
def sampleBooking : StoredBooking :=
  ⟨some "ISE_Meeting_Room_I_305_Fl1", some "2024-06-01", some "09:00",
   some "10:00", some "alice", some "alice@ise.com", "d0"⟩

theorem claim_C8_witness :
    handle_booking_submission sampleState "ISE_Meeting_Room_I_305_Fl1"
      ⟨2024, 6, 1⟩ ⟨10, 0, 0⟩ ⟨9, 0, 0⟩ =
      (SubmitResult.invalidInterval, sampleState) :=
  claim_C8_invalid_interval sampleState "alice" "ISE_Meeting_Room_I_305_Fl1"
    ⟨2024, 6, 1⟩ ⟨10, 0, 0⟩ ⟨9, 0, 0⟩ rfl rfl

/-- With a warm users cache and a resolvable email, the handler of a
logged-in request with a valid interval reduces to the commit path. -/
lemma handler_reduces (s : AppState) (u em room_name : String)
    (us : List (String × UserRec)) (urec : UserRec) (d : PyDate)
    (st et : PyTime)
    (hauth : s.authenticated_user = some u)
    (huc : s.users_cache = some us)
    (hfind : lookupUser us u = some urec)
    (hemail : urec.email = some em)
    (hlt : pyTimeLt st et = true) :
    handle_booking_submission s room_name d st et =
      commit_path
        { room := room_name, date := formatDate d,
          start_time := formatTimeMinutes st,
          end_time := formatTimeMinutes et,
          user_id := u, user_email := em, date_obj := d,
          start_time_obj := st, end_time_obj := et } s := by
  simp [handle_booking_submission, hauth, hlt, load_users_from_db, huc,
    hfind, hemail]

/-- A cold cache read on a connected, reachable store returns the
authoritative bookings and caches them. -/
lemma load_bookings_cold (s : AppState) (hbc : s.bookings_cache = none)
    (hready : s.db_ready = true) (hro : s.read_ok = true) :
    load_bookings_from_db s =
      (s.db_bookings, { s with bookings_cache := some s.db_bookings }) := by
  simp [load_bookings_from_db, hbc, bookingsBody, hready, hro]

/-- Claim C9 (amended): the submission handler performs no room-catalog
check: a logged-in, valid-interval request for a room id that is not
among the selectbox options is admitted against an empty store and a
booking for that unknown room is written. -/
theorem claim_C9_no_catalog_check (s : AppState) (u em room_name : String)
    (us : List (String × UserRec)) (urec : UserRec) (d : PyDate)
    (st et : PyTime)
    (hauth : s.authenticated_user = some u)
    (hready : s.db_ready = true)
    (huc : s.users_cache = some us)
    (hfind : lookupUser us u = some urec)
    (hemail : urec.email = some em)
    (hbc : s.bookings_cache = none)
    (hro : s.read_ok = true)
    (hwo : s.write_ok = true)
    (hdb : s.db_bookings = [])
    (hlt : pyTimeLt st et = true)
    (hroom : room_name ∉ booking_form_room_options) :
    (handle_booking_submission s room_name d st et).1 = SubmitResult.success ∧
    ∃ rec : StoredBooking,
      (handle_booking_submission s room_name d st et).2.db_bookings = [rec] ∧
      rec.room = some room_name := by
  rw [handler_reduces s u em room_name us urec d st et hauth huc hfind hemail hlt]
  rw [commit_path, load_bookings_cold s hbc hready hro]
  simp only [hdb, is_conflict]
  simp only [save_booking_to_db, hready, hwo]
  simp [newRecord]

theorem claim_C9_witness :
    (handle_booking_submission sampleState "Imaginary_Room" ⟨2024, 6, 1⟩
        ⟨9, 0, 0⟩ ⟨10, 0, 0⟩).1 = SubmitResult.success ∧
    ∃ rec : StoredBooking,
      (handle_booking_submission sampleState "Imaginary_Room" ⟨2024, 6, 1⟩
          ⟨9, 0, 0⟩ ⟨10, 0, 0⟩).2.db_bookings = [rec] ∧
      rec.room = some "Imaginary_Room" :=
  claim_C9_no_catalog_check sampleState "alice" "alice@ise.com"
    "Imaginary_Room" sampleUsers ⟨some "alice@ise.com", none, some "user"⟩
    ⟨2024, 6, 1⟩ ⟨9, 0, 0⟩ ⟨10, 0, 0⟩ rfl rfl rfl rfl rfl rfl rfl rfl rfl
    rfl (by decide)

/-- Claim C9 as stated is false: a request naming a room that is not in
the catalog is not rejected; it succeeds and a booking for the unknown
room is written. -/
theorem claim_C9_counterexample :
    ("Imaginary_Room" ∉ booking_form_room_options) ∧
    (handle_booking_submission sampleState "Imaginary_Room" ⟨2024, 6, 1⟩
        ⟨9, 0, 0⟩ ⟨10, 0, 0⟩).1 = SubmitResult.success ∧
    (handle_booking_submission sampleState "Imaginary_Room" ⟨2024, 6, 1⟩
        ⟨9, 0, 0⟩ ⟨10, 0, 0⟩).2.db_bookings ≠ [] := by
  refine ⟨by decide, rfl, by decide⟩

lemma bookingView_isSome_parts (b : StoredBooking)
    (h : (bookingView b).isSome = true) :
    (parseDateField b.date).isSome ∧ (parseTimeField b.start_time).isSome ∧
      (parseTimeField b.end_time).isSome ∧ (b.room).isSome = true := by
  unfold bookingView at h
  split at h
  · refine ⟨?_, ?_, ?_, ?_⟩ <;> simp_all
  · simp at h

/-- Claim C4: a request that overlaps a stored booking of the same room
and date is answered with the conflict result and the stored collection
is not modified. -/
theorem claim_C4_conflict_no_write (s : AppState) (u em room_name : String)
    (us : List (String × UserRec)) (urec : UserRec) (d : PyDate)
    (st et : PyTime)
    (hauth : s.authenticated_user = some u)
    (hready : s.db_ready = true)
    (huc : s.users_cache = some us)
    (hfind : lookupUser us u = some urec)
    (hemail : urec.email = some em)
    (hbc : s.bookings_cache = none)
    (hro : s.read_ok = true)
    (hlt : pyTimeLt st et = true)
    (hwf : ∀ b ∈ s.db_bookings, (bookingView b).isSome = true)
    (hconf : ∃ b ∈ s.db_bookings, ∃ pb : ParsedBooking,
      bookingView b = some pb ∧ pb.room = room_name ∧ pb.date = d ∧
      is_time_overlap (some st) (some et) (some pb.startT)
        (some pb.endT) = true) :
    (handle_booking_submission s room_name d st et).1 =
      SubmitResult.conflict ∧
    (handle_booking_submission s room_name d st et).2.db_bookings =
      s.db_bookings := by
  rw [handler_reduces s u em room_name us urec d st et hauth huc hfind
    hemail hlt]
  rw [commit_path, load_bookings_cold s hbc hready hro]
  have hctrue : is_conflict
      { room := room_name, date := formatDate d,
        start_time := formatTimeMinutes st,
        end_time := formatTimeMinutes et,
        user_id := u, user_email := em, date_obj := d,
        start_time_obj := st, end_time_obj := et }
      s.db_bookings = Except.ok true := by
    refine is_conflict_of_overlap _ _ ?_ ?_
    · intro b hb _
      exact (bookingView_isSome_parts b (hwf b hb)).2.2.2
    · exact hconf
  simp only [hctrue]
  simp

/-- sampleState with the alice booking stored and bob logged in. -/
def c4State : AppState :=
  { db_ready := true, db_bookings := [sampleBooking],
    db_users := sampleUsers, bookings_cache := none,
    users_cache := some sampleUsers, read_ok := true,
    users_read_ok := true, write_ok := true,
    authenticated_user := some "bob", user_role := some "user",
    next_doc_id := 1 }

theorem claim_C4_witness :
    (handle_booking_submission c4State "ISE_Meeting_Room_I_305_Fl1"
        ⟨2024, 6, 1⟩ ⟨9, 30, 0⟩ ⟨10, 30, 0⟩).1 = SubmitResult.conflict ∧
    (handle_booking_submission c4State "ISE_Meeting_Room_I_305_Fl1"
        ⟨2024, 6, 1⟩ ⟨9, 30, 0⟩ ⟨10, 30, 0⟩).2.db_bookings =
      c4State.db_bookings :=
  claim_C4_conflict_no_write c4State "bob" "bob@ise.com"
    "ISE_Meeting_Room_I_305_Fl1" sampleUsers
    ⟨some "bob@ise.com", none, some "user"⟩ ⟨2024, 6, 1⟩ ⟨9, 30, 0⟩
    ⟨10, 30, 0⟩ rfl rfl rfl rfl rfl rfl rfl rfl (by decide)
    ⟨sampleBooking, by decide,
      ⟨"ISE_Meeting_Room_I_305_Fl1", ⟨2024, 6, 1⟩, ⟨9, 0, 0⟩, ⟨10, 0, 0⟩⟩,
      rfl, rfl, rfl, rfl⟩

lemma bookingView_newRecord (nb : NewBooking) (docId : String)
    (hdate : parseDate nb.date = some nb.date_obj)
    (hst : parseTime nb.start_time = some nb.start_time_obj)
    (het : parseTime nb.end_time = some nb.end_time_obj) :
    bookingView (newRecord nb docId) =
      some ⟨nb.room, nb.date_obj, nb.start_time_obj, nb.end_time_obj⟩ := by
  simp [bookingView, newRecord, parseDateField, parseTimeField, hdate,
    hst, het]

/-- Claim C1: starting from a store satisfying the non-overlap
invariant, any outcome of a submission whose commit path reads the
authoritative store (cold cache, reachable store) leaves the invariant
satisfied; in particular a booking admitted by the conflict check and
written preserves it. -/
theorem claim_C1_invariant_preserved (s : AppState)
    (u em room_name : String) (us : List (String × UserRec))
    (urec : UserRec) (d : PyDate) (st et : PyTime)
    (hauth : s.authenticated_user = some u)
    (hready : s.db_ready = true)
    (huc : s.users_cache = some us)
    (hfind : lookupUser us u = some urec)
    (hemail : urec.email = some em)
    (hbc : s.bookings_cache = none)
    (hro : s.read_ok = true)
    (hd : validDate d)
    (hstv : st.hour < 24 ∧ st.minute < 60 ∧ st.second = 0)
    (hetv : et.hour < 24 ∧ et.minute < 60 ∧ et.second = 0)
    (hinv : nonOverlapInvariant s.db_bookings) :
    nonOverlapInvariant
      (handle_booking_submission s room_name d st et).2.db_bookings := by
  by_cases hlt : pyTimeLt st et = true
  · rw [handler_reduces s u em room_name us urec d st et hauth huc hfind
      hemail hlt]
    rw [commit_path, load_bookings_cold s hbc hready hro]
    cases hc : is_conflict
        { room := room_name, date := formatDate d,
          start_time := formatTimeMinutes st,
          end_time := formatTimeMinutes et,
          user_id := u, user_email := em, date_obj := d,
          start_time_obj := st, end_time_obj := et }
        s.db_bookings with
    | error e => simp only [hc]; exact hinv
    | ok r =>
      cases r with
      | true => simp only [hc]; exact hinv
      | false =>
        simp only [hc, save_booking_to_db, hready]
        by_cases hwo : s.write_ok = true
        · simp only [hwo]
          simp only [Bool.false_eq_true, if_false, if_true]
          refine nonOverlap_append s.db_bookings _ _ ?_ hc hinv
          refine bookingView_newRecord _ _ ?_ ?_ ?_
          · exact parseDate_roundtrip d hd
          · rw [parseTime_roundtrip st hstv.1 hstv.2.1]
            obtain ⟨sth, stm, sts⟩ := st
            obtain rfl : sts = 0 := hstv.2.2
            rfl
          · rw [parseTime_roundtrip et hetv.1 hetv.2.1]
            obtain ⟨eth, etm, ets⟩ := et
            obtain rfl : ets = 0 := hetv.2.2
            rfl
        · have hwo2 : s.write_ok = false := by
            revert hwo; cases s.write_ok <;> simp
          simp only [hwo2]
          simp only [Bool.false_eq_true, if_false]
          exact hinv
  · have hlt2 : pyTimeLt st et = false := by
      revert hlt; cases pyTimeLt st et <;> simp
    simp only [handle_booking_submission, hauth, hlt2]
    exact hinv

theorem claim_C1_witness :
    nonOverlapInvariant
      ((handle_booking_submission sampleState "ISE_Meeting_Room_I_305_Fl1"
          ⟨2024, 6, 1⟩ ⟨9, 0, 0⟩ ⟨10, 0, 0⟩).2.db_bookings) :=
  claim_C1_invariant_preserved sampleState "alice" "alice@ise.com"
    "ISE_Meeting_Room_I_305_Fl1" sampleUsers
    ⟨some "alice@ise.com", none, some "user"⟩ ⟨2024, 6, 1⟩ ⟨9, 0, 0⟩
    ⟨10, 0, 0⟩ rfl rfl rfl rfl rfl rfl rfl (by decide) (by decide)
    (by decide) (fun r d => List.Pairwise.nil)

/-- The state for the store-failure scenario: the alice booking is
stored, bob is logged in, the store is connected but the next bookings
read raises (read_ok = false); the write that follows succeeds. -/
def c5State : AppState :=
  { db_ready := true, db_bookings := [sampleBooking],
    db_users := sampleUsers, bookings_cache := none,
    users_cache := some sampleUsers, read_ok := false,
    users_read_ok := true, write_ok := true,
    authenticated_user := some "bob", user_role := some "user",
    next_doc_id := 1 }

/-- Claim C5 fails on the code: when the bookings read raises, the
except branch of load_bookings_from_db returns [] so the conflict check
sees an empty store; the request for the very slot alice already holds
is admitted, reported as a success, and written, violating the
non-overlap invariant - instead of failing with a StoreUnavailable
style error. -/
theorem claim_C5_read_failure_admits :
    (handle_booking_submission c5State "ISE_Meeting_Room_I_305_Fl1"
        ⟨2024, 6, 1⟩ ⟨9, 0, 0⟩ ⟨10, 0, 0⟩).1 = SubmitResult.success ∧
    ¬ nonOverlapInvariant
      (handle_booking_submission c5State "ISE_Meeting_Room_I_305_Fl1"
          ⟨2024, 6, 1⟩ ⟨9, 0, 0⟩ ⟨10, 0, 0⟩).2.db_bookings := by
  refine ⟨rfl, ?_⟩
  intro h
  exact absurd (h "ISE_Meeting_Room_I_305_Fl1" ⟨2024, 6, 1⟩) (by decide)

/-- The two identical-slot candidates of the race scenario. -/
def nbAlice : NewBooking :=
  ⟨"ISE_Meeting_Room_I_305_Fl1", "2024-06-01", "09:00", "10:00",
   "alice", "alice@ise.com", ⟨2024, 6, 1⟩, ⟨9, 0, 0⟩, ⟨10, 0, 0⟩⟩

def nbBob : NewBooking :=
  ⟨"ISE_Meeting_Room_I_305_Fl1", "2024-06-01", "09:00", "10:00",
   "bob", "bob@ise.com", ⟨2024, 6, 1⟩, ⟨9, 0, 0⟩, ⟨10, 0, 0⟩⟩

/-- Claim C2 fails on the code: two concurrent submissions of the
identical room, date and interval, interleaved as read-read-write-write
(legal under threaded Streamlit sessions, and enabled by the ttl=5
cache that the commit path consults), both report success and leave the
store double-booked - instead of exactly one success and one conflict. -/
theorem claim_C2_race_double_books :
    (interleaved_commits nbAlice nbBob sampleState).1 =
      SubmitResult.success ∧
    (interleaved_commits nbAlice nbBob sampleState).2.1 =
      SubmitResult.success ∧
    ¬ nonOverlapInvariant
      (interleaved_commits nbAlice nbBob sampleState).2.2.db_bookings := by
  refine ⟨rfl, rfl, ?_⟩
  intro h
  exact absurd (h "ISE_Meeting_Room_I_305_Fl1" ⟨2024, 6, 1⟩) (by decide)

/-- delete_booking_from_db on the empty cancel value: document() on an
empty path raises, the except branch returns False, nothing changes. -/
lemma delete_empty (s : AppState) : delete_booking_from_db "" s = (false, s) := by
  obtain ⟨ready, b1, b2, b3, b4, b5, b6, b7, b8, b9, b10⟩ := s
  cases ready <;> rfl

/-- Claim C6: a requester who neither owns the booking nor has the
admin role is offered no cancel control (the cancel cell is the empty
string), and the delete handler fired with that empty value refuses and
leaves the state, in particular the stored bookings, unchanged. -/
theorem claim_C6_cancel_authorization (requester : String)
    (role : Option String) (owner : String) (b : StoredBooking)
    (s : AppState)
    (hown : b.user_id = some owner)
    (hneq : owner ≠ requester)
    (hrole : role ≠ some "admin") :
    cancel_item requester role b = Except.ok "" ∧
    delete_booking_from_db "" s = (false, s) := by
  constructor
  · simp [cancel_item, hown, hneq, hrole]
  · exact delete_empty s

theorem claim_C6_witness :
    cancel_item "bob" (some "user") sampleBooking = Except.ok "" ∧
    delete_booking_from_db "" sampleState = (false, sampleState) :=
  claim_C6_cancel_authorization "bob" (some "user") "alice" sampleBooking
    sampleState rfl (by decide) (by decide)

lemma isPrefixOf_append_self (l t : List Char) :
    l.isPrefixOf (l ++ t) = true := by
  induction l with
  | nil => simp [List.isPrefixOf]
  | cons a as ih => simp [List.isPrefixOf, ih]

/-- Claim C7 (amended): on a connected store with working writes, a
cancel click for any document id always reports success: the result is
True and the stored bookings are filtered by that id.  When the id is
present this removes it; when it is absent (for example on a second
cancellation of the same id) the filter changes nothing and the call is
a second silent success - the code never reports a NotFound. -/
theorem claim_C7_cancel_always_reports_ok (s : AppState) (dd : String)
    (hready : s.db_ready = true) (hwrite : s.write_ok = true)
    (hdd : dd ≠ "") :
    (delete_booking_from_db ("Cancel-" ++ dd) s).1 = true ∧
    (delete_booking_from_db ("Cancel-" ++ dd) s).2.db_bookings =
      s.db_bookings.filter (fun b => decide (b.doc_id ≠ dd)) := by
  have hdata : ("Cancel-" ++ dd).data = "Cancel-".data ++ dd.data :=
    String.data_append "Cancel-" dd
  have hpre : "Cancel-".data.isPrefixOf ("Cancel-" ++ dd).data = true := by
    rw [hdata]
    exact isPrefixOf_append_self "Cancel-".data dd.data
  have hdrop : ("Cancel-" ++ dd).drop 7 = dd := by
    rw [String.drop_eq, hdata]
    rw [show (7 : Nat) = "Cancel-".data.length from rfl]
    rw [List.drop_left]
  rw [delete_booking_from_db]
  simp only [hready, hpre, hdrop, if_true]
  rw [if_neg (show ¬ (true = false) by simp), if_neg hdd,
    if_neg (show ¬ (s.write_ok = false) by simp [hwrite])]
  exact ⟨rfl, rfl⟩

/-- sampleState holding the alice booking, used by the cancellation
instances. -/
def c7State : AppState :=
  { db_ready := true, db_bookings := [sampleBooking],
    db_users := sampleUsers, bookings_cache := none,
    users_cache := some sampleUsers, read_ok := true,
    users_read_ok := true, write_ok := true,
    authenticated_user := some "alice", user_role := some "user",
    next_doc_id := 1 }

theorem claim_C7_witness :
    (delete_booking_from_db ("Cancel-" ++ "d0") c7State).1 = true ∧
    (delete_booking_from_db ("Cancel-" ++ "d0") c7State).2.db_bookings =
      c7State.db_bookings.filter (fun b => decide (b.doc_id ≠ "d0")) :=
  claim_C7_cancel_always_reports_ok c7State "d0" rfl rfl (by decide)

/-- Claim C7 as stated is false: the first cancellation of d0 removes
the booking and returns True, and the second cancellation of the same,
now absent, id also returns True - a second silent success where the
claim demands NotFound. -/
theorem claim_C7_counterexample :
    (delete_booking_from_db "Cancel-d0" c7State).1 = true ∧
    (delete_booking_from_db "Cancel-d0" c7State).2.db_bookings = [] ∧
    (delete_booking_from_db "Cancel-d0"
      (delete_booking_from_db "Cancel-d0" c7State).2).1 = true := by
  refine ⟨rfl, rfl, rfl⟩

/-- A stored record with parsable date and time fields but no room
field (Firestore documents are schemaless, so such a document is
representable in the bookings collection). -/
def roomlessRecord : StoredBooking :=
  ⟨none, some "2024-06-01", some "09:00", some "10:00", some "alice",
   none, "d9"⟩

/-- Claim C10 as stated is false: the conflict check does not return a
boolean on every list of stored records - a record whose date and time
fields parse but whose room field is missing makes booking[room] raise
KeyError. -/
theorem claim_C10_counterexample :
    is_conflict nbBob [roomlessRecord] = Except.error "KeyError: room" :=
  rfl

/-- Claim C10 (amended): a stored record whose date, start_time or
end_time field is missing or unparsable is silently skipped, so it can
never cause the candidate to be rejected; and the check returns a
boolean, never raising, provided every record whose three date and time
fields all parse also carries a room field. -/
theorem claim_C10_skip_and_total :
    (∀ (nb : NewBooking) (b : StoredBooking) (rest : List StoredBooking),
      (parseDateField b.date = none ∨ parseTimeField b.start_time = none ∨
        parseTimeField b.end_time = none) →
      is_conflict nb (b :: rest) = is_conflict nb rest) ∧
    (∀ (nb : NewBooking) (bs : List StoredBooking),
      (∀ b ∈ bs, ((parseDateField b.date).isSome ∧
        (parseTimeField b.start_time).isSome ∧
        (parseTimeField b.end_time).isSome) → (b.room).isSome = true) →
      ∃ r, is_conflict nb bs = Except.ok r) :=
  ⟨is_conflict_skip, is_conflict_total⟩

theorem claim_C10_witness :
    is_conflict nbBob
        [⟨some "ISE_Meeting_Room_I_305_Fl1", none, some "09:00",
          some "10:00", some "alice", none, "d8"⟩] =
      is_conflict nbBob [] ∧
    ∃ r, is_conflict nbBob [sampleBooking] = Except.ok r :=
  ⟨claim_C10_skip_and_total.1 nbBob _ [] (Or.inl rfl),
   claim_C10_skip_and_total.2 nbBob [sampleBooking] (by decide)⟩
